import Mathlib

/-!
Shallow embedding of the claxon FLAC decoder element
(`src/gst-plugin-claxon/src/claxondec.rs`).

Byte buffers are modelled as `List Nat` (each element a byte value `< 256`
in practice; masks are taken with `Nat.land`, exactly as the Rust code
applies `&` to `u8`).  Decoded samples are `Int` (the Rust code holds them
in `i32`; the narrowing casts `as i8` / `as i16` are modelled explicitly
with two's-complement wrapping).  The external collaborators — the claxon
metadata/frame-reading primitives and the GStreamer element calls — are
passed in as explicit arguments describing their outcome, so the functions
below are exactly the control flow of the Rust source over those outcomes.

A Rust `panic!` / failed `assert_eq!` / out-of-bounds index does not
return to the caller; it is modelled by a dedicated abort constructor in
each result type.
-/

/-- The subset of `claxon::metadata::StreamInfo` fields read by this code
(`sample_rate`, `channels`, `bits_per_sample`); the remaining claxon
fields are never touched by `claxondec.rs`. -/
structure StreamInfo where
  sample_rate : Nat
  channels : Nat
  bits_per_sample : Nat
deriving DecidableEq, Repr

/-- The four output sample formats the decoder can negotiate
(lines 359-364: `S8`, `S16`, `S2432`, `S32`). -/
inductive AudioFormat where
  | s8
  | s16
  | s2432
  | s32
deriving DecidableEq, Repr

/-- Sample depth of each format as reported by GStreamer `AudioInfo::depth()`
(`S2432` is a 32-bit container holding 24 significant bits, so its depth
is 24). Used by the checks and branches of `handle_data` (lines 282, 320-328). -/
def AudioFormat.depth : AudioFormat → Nat
  | .s8 => 8
  | .s16 => 16
  | .s2432 => 24
  | .s32 => 32

/-- Speaker positions appearing in `FLAC_CHANNEL_POSITIONS`
(`gst_audio::AudioChannelPosition` values used in lines 382-464). -/
inductive AudioChannelPosition where
  | mono
  | frontLeft
  | frontCenter
  | frontRight
  | rearLeft
  | rearRight
  | sideLeft
  | sideRight
  | rearCenter
  | lfe1
  | invalid
deriving DecidableEq, Repr

/-- The fixed channel-layout table of lines 382-464: 8 rows of 8 entries;
row `n - 1` is the layout for `n` channels, padded with `invalid`. -/
def FLAC_CHANNEL_POSITIONS : List (List AudioChannelPosition) :=
  [ [ .mono, .invalid, .invalid, .invalid, .invalid, .invalid, .invalid, .invalid ],
    [ .frontLeft, .frontRight, .invalid, .invalid, .invalid, .invalid, .invalid, .invalid ],
    [ .frontLeft, .frontCenter, .frontRight, .invalid, .invalid, .invalid, .invalid, .invalid ],
    [ .frontLeft, .frontRight, .rearLeft, .rearRight, .invalid, .invalid, .invalid, .invalid ],
    [ .frontLeft, .frontCenter, .frontRight, .rearLeft, .rearRight, .invalid, .invalid, .invalid ],
    [ .frontLeft, .frontCenter, .frontRight, .rearLeft, .rearRight, .lfe1, .invalid, .invalid ],
    [ .frontLeft, .frontCenter, .frontRight, .sideLeft, .sideRight, .rearCenter, .lfe1, .invalid ],
    [ .frontLeft, .frontCenter, .frontRight, .sideLeft, .sideRight, .rearLeft, .rearRight, .lfe1 ] ]

/-- The slice `&FLAC_CHANNEL_POSITIONS[index - 1][..index]` of lines 373-374
(`index = streaminfo.channels`). Only evaluated by `get_gstaudioinfo` after
its callers establish `1 ≤ n ≤ 8`. -/
def channel_positions (n : Nat) : List AudioChannelPosition :=
  (FLAC_CHANNEL_POSITIONS.getD (n - 1) []).take n

/-- The negotiated output format built by `get_gstaudioinfo`
(`gst_audio::AudioInfo`: format tag, rate, channel count, positions).
`channels` and `depth` are the accessors used by `handle_data`
(lines 273, 282, 320-328). -/
structure AudioInfo where
  format : AudioFormat
  rate : Nat
  channels : Nat
  positions : List AudioChannelPosition
deriving DecidableEq, Repr

/-- Result of a Rust function that may return `Ok`, return `Err`, or abort
by a panic (failed assertion or out-of-bounds index, which never returns). -/
inductive RResult (α : Type) where
  | ok : α → RResult α
  | err : String → RResult α
  | fatal : RResult α
deriving DecidableEq, Repr

/-- Lines 356-378, `get_gstaudioinfo`: maps `bits_per_sample` to a format
tag (any other width: `Err "format not supported"`), rejects
`channels > 8` (`Err "more than 8 channels not supported yet"`), then
builds the `AudioInfo` with the channel-position slice
`&FLAC_CHANNEL_POSITIONS[index - 1][..index]`.  When `channels = 0` the
Rust `index - 1` on `usize` aborts (overflow in debug, index out of bounds
in release), modelled by `fatal`.  The terminal `build().unwrap()` of the
GStreamer builder is external and treated as pure construction. -/
def get_gstaudioinfo (si : StreamInfo) : RResult AudioInfo :=
  let fmt : Option AudioFormat :=
    if si.bits_per_sample = 8 then some .s8
    else if si.bits_per_sample = 16 then some .s16
    else if si.bits_per_sample = 24 then some .s2432
    else if si.bits_per_sample = 32 then some .s32
    else none
  match fmt with
  | none => .err "format not supported"
  | some format =>
    if 8 < si.channels then .err "more than 8 channels not supported yet"
    else if si.channels = 0 then .fatal
    else .ok ⟨format, si.sample_rate, si.channels, channel_positions si.channels⟩

/-- A metadata block as produced by the external
`claxon::metadata::MetadataBlockReader` (only the `StreamInfo` variant is
distinguished by this code; every other block kind falls into `other`). -/
inductive MetadataBlock where
  | streamInfo : StreamInfo → MetadataBlock
  | other : MetadataBlock
deriving DecidableEq, Repr

/-- Outcome of the single `metadata_iter.next()` call in
`get_claxon_streaminfo` (line 346): iterator exhausted, a block-level
error, or a successfully parsed block. -/
inductive MetaNext where
  | exhausted
  | errBlock
  | okBlock : MetadataBlock → MetaNext
deriving DecidableEq, Repr

/-- The observable behaviour of the external claxon metadata reader on the
supplied slice: what `next()` returned and the cursor position (bytes
consumed) afterwards. -/
structure MetaPrim where
  next : MetaNext
  consumed : Nat
deriving DecidableEq, Repr

/-- Lines 343-354, `get_claxon_streaminfo`: runs the claxon metadata reader
over `indata`; anything other than `Some(Ok(MetadataBlock::StreamInfo(..)))`
returns `Err "Failed to decode STREAMINFO"`; on success the
`assert_eq!(cursor.position(), indata.len())` of line 351 aborts (`fatal`)
when the reader consumed a number of bytes different from the slice
length. -/
def get_claxon_streaminfo (indata : List Nat) (p : MetaPrim) : RResult StreamInfo :=
  match p.next with
  | .okBlock (.streamInfo si) =>
      if p.consumed = indata.length then .ok si else .fatal
  | _ => .err "Failed to decode STREAMINFO"

/-- Decoder session state (`struct State`, lines 24-27): the parsed
STREAMINFO and the negotiated output format, both optional. -/
structure State where
  streaminfo : Option StreamInfo
  audio_info : Option AudioInfo
deriving DecidableEq, Repr

/-- A decoded frame as produced by the external
`claxon::frame::FrameReader` (`claxon::Block`): channel count, samples per
channel, and the flat sample buffer in channel-major order.  claxon
guarantees `buffer.length = channels * blockSize`; the accessors below are
its `len()`, `sample(ch, i)` and `into_buffer()`. -/
structure Block where
  channels : Nat
  blockSize : Nat
  buffer : List Int
deriving DecidableEq, Repr

/-- claxon `Block::len()`: total number of samples across all channels. -/
def Block.len (b : Block) : Nat := b.blockSize * b.channels

/-- claxon `Block::sample(ch, i)`: channel `ch`'s `i`-th sample (the
buffer is channel-major). -/
def Block.sample (b : Block) (ch i : Nat) : Int :=
  b.buffer.getD (ch * b.blockSize + i) 0

/-- Outcome of `reader.read_next_or_eof(buffer)` in `handle_data`
(line 292): end of stream (`Ok(None)`), a decode error (`Err`), or a
decoded block (`Ok(Some(..))`). -/
inductive FrameRead where
  | eof
  | decodeFailed
  | okFrame : Block → FrameRead
deriving DecidableEq, Repr

/-- The observable behaviour of the external claxon frame reader on the
supplied buffer: the read outcome and the cursor position afterwards. -/
structure DataPrim where
  read : FrameRead
  consumed : Nat
deriving DecidableEq, Repr

/-- `gst::FlowError` values this element can return (`NotNegotiated`,
`Error`, and whatever error the `gst_audio_decoder_error!` macro maps a
frame-decode failure to, abstracted as `decodeError`). -/
inductive FlowError where
  | notNegotiated
  | error
  | decodeError
deriving DecidableEq, Repr

/-- Result of one `handle_frame`/`handle_data` style call: `ok outbuf`
models `finish_frame(outbuf, 1)` (at most one output byte buffer),
`err` a returned `gst::FlowError`, and `fatal` a panic (failed assertion,
out-of-bounds index, or `unreachable!`). -/
inductive FlowRet where
  | ok : Option (List Nat) → FlowRet
  | err : FlowError → FlowRet
  | fatal : FlowRet
deriving DecidableEq, Repr

/-- The interleaving loop of `handle_data` (lines 307-315): a vector of
`len` zeros (`vec![0; result.len()]`) is cut by `chunks_exact_mut
(channels)` into `len / channels` chunks; chunk `o`, element `c` is set to
`sample c o`.  The `len % channels` trailing elements are not part of any
exact chunk and keep their initial `0`.  (Well defined only for
`channels ≠ 0`; `chunks_exact_mut(0)` panics, which the caller models.) -/
def interleave (channels len : Nat) (sample : Nat → Nat → Int) : List Int :=
  (List.range (len / channels)).flatMap
    (fun o => (List.range channels).map fun c => sample c o)
  ++ List.replicate (len % channels) 0

/-- Two's-complement low 8 bits of an `i32`, i.e. the Rust cast `e as i8`. -/
def asI8 (x : Int) : Int := (x + 128) % 256 - 128

/-- Two's-complement low 16 bits of an `i32`, i.e. the Rust cast `e as i16`. -/
def asI16 (x : Int) : Int := (x + 32768) % 65536 - 32768

/-- An `i8` as its single output byte (`into_byte_vec` on a `Vec<i8>`). -/
def i8Bytes (x : Int) : List Nat := [(x % 256).toNat]

/-- An `i16` as its two little-endian output bytes. -/
def i16Bytes (x : Int) : List Nat :=
  let u := (x % 65536).toNat
  [u % 256, u / 256]

/-- An `i32` as its four little-endian output bytes. -/
def i32Bytes (x : Int) : List Nat :=
  let u := (x % 4294967296).toNat
  [u % 256, u / 256 % 256, u / 65536 % 256, u / 16777216 % 256]

/-- The sample-width narrowing of `handle_data` (lines 320-328): for depth
8 the samples are cast `as i8`, for depth 16 cast `as i16`, otherwise
(24-in-32 and 32) kept as `i32`; the resulting vector is emitted as the
output byte sequence (`into_byte_vec`, native little-endian layout). -/
def repack (depth : Nat) (v : List Int) : List Nat :=
  if depth = 8 then v.flatMap (fun e => i8Bytes (asI8 e))
  else if depth = 16 then v.flatMap (fun e => i16Bytes (asI16 e))
  else v.flatMap i32Bytes

/-- Lines 261-331, `handle_data`: requires a negotiated `audio_info`
(else `Err(NotNegotiated)`), re-checks channels `≤ 8` and depth in
`{8,16,24,32}` (`unreachable!` aborts), runs the claxon frame reader
(`eof` → frame finished with no output, failure → decoder error), asserts
the reader consumed the whole buffer (line 305, abort on mismatch),
interleaves when `channels != 1` (`chunks_exact_mut(0)` aborts when
`channels = 0`), narrows to the negotiated depth and emits one buffer.
The session state is never written. -/
def handle_data (st : State) (indata : List Nat) (p : DataPrim) :
    FlowRet × State :=
  match st.audio_info with
  | none => (.err .notNegotiated, st)
  | some ai =>
    let channels := ai.channels
    if 8 < channels then (.fatal, st)
    else if ¬(ai.format.depth = 8 ∨ ai.format.depth = 16 ∨
              ai.format.depth = 24 ∨ ai.format.depth = 32) then (.fatal, st)
    else
      match p.read with
      | .eof => (.ok none, st)
      | .decodeFailed => (.err .decodeError, st)
      | .okFrame b =>
        if p.consumed ≠ indata.length then (.fatal, st)
        else
          if channels = 1 then
            (.ok (some (repack ai.format.depth b.buffer)), st)
          else if channels = 0 then (.fatal, st)
          else
            (.ok (some (repack ai.format.depth
                   (interleave channels b.len b.sample))), st)

/-- The 4-byte stream marker literal `b"fLaC"` (line 200). -/
def fLaCMarker : List Nat := [0x66, 0x4C, 0x61, 0x43]

/-- How `handle_frame` classifies a buffer (lines 200-216), including the
abort case `oob` where the classification itself indexes past the end of
the buffer. -/
inductive Classification where
  | streamMarker
  | metadataHeader
  | audioFrame
  | otherHeader
  | oob
deriving DecidableEq, Repr

/-- The classification chain of `handle_frame` (lines 200-216), checked in
order: whole buffer equals `b"fLaC"`; else `inmap[0] & 0x7F == 0`
(metadata header); else `inmap[0] == 0xFF && inmap[1] & 0xFC == 0xF8`
(audio frame, with Rust `&&` short-circuit so `inmap[1]` is only read when
`inmap[0] == 0xFF`); else any other header.  Reading `inmap[0]` or
`inmap[1]` past the end of the buffer aborts (`oob`). -/
def classify (inmap : List Nat) : Classification :=
  if inmap = fLaCMarker then .streamMarker
  else
    match inmap.get? 0 with
    | none => .oob
    | some b0 =>
      if b0 &&& 0x7F = 0 then .metadataHeader
      else if b0 = 0xFF then
        match inmap.get? 1 with
        | none => .oob
        | some b1 => if b1 &&& 0xFC = 0xF8 then .audioFrame else .otherHeader
      else .otherHeader

/-- Lines 223-259, `handle_streaminfo_header`: parse STREAMINFO (claxon
errors become element errors with `Err(FlowError::Error)`), resolve the
output format likewise, then `set_output_format`/`negotiate` (their
combined outcome is the external `neg`; a failure there propagates via `?`
before any state write), store both fields and finish the frame with no
output. -/
def handle_streaminfo_header (st : State) (indata : List Nat) (mp : MetaPrim)
    (neg : Option FlowError) : FlowRet × State :=
  match get_claxon_streaminfo indata mp with
  | .fatal => (.fatal, st)
  | .err _ => (.err .error, st)
  | .ok si =>
    match get_gstaudioinfo si with
    | .fatal => (.fatal, st)
    | .err _ => (.err .error, st)
    | .ok ai =>
      match neg with
      | some e => (.err e, st)
      | none => (.ok none, { streaminfo := some si, audio_info := some ai })

/-- Lines 180-219, `handle_frame`: a `None` input buffer returns `Ok`
immediately; a missing session state is `Err(NotNegotiated)`; otherwise
the buffer is classified and routed — marker and other-header buffers
finish the frame with no output, metadata headers go to
`handle_streaminfo_header`, audio frames to `handle_data`.  (`mp`, `neg`,
`dp` describe the external primitives on the paths that use them; the
`map_readable` of line 192 is assumed to succeed.) -/
def handle_frame (st? : Option State) (inbuf? : Option (List Nat))
    (mp : MetaPrim) (neg : Option FlowError) (dp : DataPrim) :
    FlowRet × Option State :=
  match inbuf? with
  | none => (.ok none, st?)
  | some inmap =>
    match st? with
    | none => (.err .notNegotiated, none)
    | some st =>
      match classify inmap with
      | .streamMarker => (.ok none, some st)
      | .metadataHeader =>
          let r := handle_streaminfo_header st inmap mp neg
          (r.1, some r.2)
      | .audioFrame =>
          let r := handle_data st inmap dp
          (r.1, some r.2)
      | .otherHeader => (.ok none, some st)
      | .oob => (.fatal, some st)

/-- The 7-byte identification prefix checked by `set_format` (line 147):
`[0x7f, b'F', b'L', b'A', b'C', 0x01, 0x00]`. -/
def flacIdent : List Nat := [0x7F, 0x46, 0x4C, 0x41, 0x43, 0x01, 0x00]

/-- Result of `set_format`: the call returns `Ok(())` after overwriting the
session state with `newState`, or aborts on a panic (slice index past the
end of the identification buffer, or the STREAMINFO consumed-bytes
assertion). -/
inductive SFResult where
  | ok : State → SFResult
  | fatal : SFResult
deriving DecidableEq, Repr

/-- Lines 121-177, `set_format`.  `sh` is the optional `streamheader`
caps field (`none` when absent or not an array), each element an optional
buffer (`none` when `get::<gst::Buffer>()` does not yield a buffer);
`mp` describes the claxon metadata reader on `ident.drop 13`.  With fewer
than two headers, a non-buffer first header, a wrong identification
prefix, a STREAMINFO parse error, or a format-resolution error, the state
is overwritten with both fields `none` and the call still returns `Ok`.
Only on full success are both fields stored.  The slices `inmap[0..7]` and
`inmap[13..]` abort when the buffer is shorter than 7 (resp. 13) bytes.
The ignored `set_output_format`/`negotiate` results (lines 152-154) do not
appear: they affect neither the state nor the return value. -/
def set_format (sh : Option (List (Option (List Nat)))) (mp : MetaPrim) :
    SFResult :=
  match sh with
  | none => .ok ⟨none, none⟩
  | some hs =>
    if hs.length < 2 then .ok ⟨none, none⟩
    else
      match hs.getD 0 none with
      | none => .ok ⟨none, none⟩
      | some ident =>
        if ident.length < 7 then .fatal
        else if ident.take 7 ≠ flacIdent then .ok ⟨none, none⟩
        else if ident.length < 13 then .fatal
        else
          match get_claxon_streaminfo (ident.drop 13) mp with
          | .fatal => .fatal
          | .err _ => .ok ⟨none, none⟩
          | .ok si =>
            match get_gstaudioinfo si with
            | .fatal => .fatal
            | .err _ => .ok ⟨none, none⟩
            | .ok ai => .ok ⟨some si, some ai⟩

/-- Reinterpreting a little-endian byte sequence as 16-bit signed
integers, two bytes per value (the decoding direction of the round-trip
property; inverse of the layout `into_byte_vec` produces on a
`Vec<i16>`). -/
def bytesToI16s : List Nat → List Int
  | b0 :: b1 :: rest =>
      (let u := b0 % 256 + 256 * (b1 % 256)
       if u < 32768 then (u : Int) else (u : Int) - 65536) :: bytesToI16s rest
  | _ => []

/-- Per-channel sample arrays viewed as the claxon sample accessor:
`sampleOfLists chs c i` is channel `c`'s `i`-th sample (0 outside the
arrays). -/
def sampleOfLists (chs : List (List Int)) (c i : Nat) : Int :=
  (chs.getD c []).getD i 0

/-- The bits-per-sample to format-tag mapping of lines 359-364 as a total
function (the value outside the four supported widths is irrelevant: it is
only ever used under the hypothesis that the width is supported). -/
def bitsFormat : Nat → AudioFormat
  | 8 => .s8
  | 16 => .s16
  | 24 => .s2432
  | 32 => .s32
  | _ => .s8

lemma depth_mem (f : AudioFormat) :
    f.depth = 8 ∨ f.depth = 16 ∨ f.depth = 24 ∨ f.depth = 32 := by
  cases f <;> simp [AudioFormat.depth]

/-- C7: for every channel count 1..8 the layout lookup (first
`channel_count` entries of row `channel_count - 1` of
`FLAC_CHANNEL_POSITIONS`) returns exactly `channel_count` entries, none of
which is `invalid`. -/
theorem channel_positions_valid (n : Nat) (h1 : 1 ≤ n) (h2 : n ≤ 8) :
    (channel_positions n).length = n ∧
    ∀ p ∈ channel_positions n, p ≠ AudioChannelPosition.invalid := by
  interval_cases n <;> decide

theorem channel_positions_valid_witness :
    (channel_positions 2).length = 2 ∧
    ∀ p ∈ channel_positions 2, p ≠ AudioChannelPosition.invalid :=
  channel_positions_valid 2 (by decide) (by decide)

/-- C4: when no output format has been negotiated
(`state.audio_info = none`), `handle_data` fails with
`FlowError::NotNegotiated`, produces no output buffer, and leaves the
session state (both `streaminfo` and `audio_info`) unchanged. -/
theorem handle_data_not_negotiated (st : State) (indata : List Nat)
    (p : DataPrim) (h : st.audio_info = none) :
    handle_data st indata p = (.err .notNegotiated, st) := by
  simp [handle_data, h]

theorem handle_data_not_negotiated_witness :
    handle_data ⟨none, none⟩ [] ⟨.eof, 0⟩ = (.err .notNegotiated, ⟨none, none⟩) :=
  handle_data_not_negotiated ⟨none, none⟩ [] ⟨.eof, 0⟩ rfl

/-- C2 as stated is false on the code at two inputs: with
`bits_per_sample = 20` and `channel_count = 9` the width check runs first
and the error is `"format not supported"`, not the claimed
`UnsupportedChannelCount`; and with `channel_count = 0` (outside the
domain) the layout indexing underflows — an abort, not a returned
failure. -/
theorem get_gstaudioinfo_claim_counterexample :
    get_gstaudioinfo ⟨44100, 9, 20⟩ = .err "format not supported" ∧
    get_gstaudioinfo ⟨44100, 9, 20⟩ ≠ .err "more than 8 channels not supported yet" ∧
    get_gstaudioinfo ⟨44100, 0, 16⟩ = .fatal := by
  refine ⟨rfl, ?_, rfl⟩
  intro h
  simp [get_gstaudioinfo] at h

/-- C2 amended: `get_gstaudioinfo` maps bits 8/16/24/32 to the
corresponding signed format and succeeds on the domain
`bits ∈ {8,16,24,32}, channels ∈ 1..8`; any other bit width fails with
`"format not supported"` (this check runs before the channel check, so it
also wins when `channels > 8`); a supported width with `channels > 8`
fails with `"more than 8 channels not supported yet"`; outside the domain
no `AudioInfo` is ever produced (for `channels = 0` the layout indexing
aborts instead of returning an error). -/
theorem get_gstaudioinfo_cases (r c b : Nat) :
    ((b = 8 ∨ b = 16 ∨ b = 24 ∨ b = 32) → 1 ≤ c → c ≤ 8 →
       get_gstaudioinfo ⟨r, c, b⟩ =
         .ok ⟨bitsFormat b, r, c, channel_positions c⟩) ∧
    (¬(b = 8 ∨ b = 16 ∨ b = 24 ∨ b = 32) →
       get_gstaudioinfo ⟨r, c, b⟩ = .err "format not supported") ∧
    ((b = 8 ∨ b = 16 ∨ b = 24 ∨ b = 32) → 8 < c →
       get_gstaudioinfo ⟨r, c, b⟩ = .err "more than 8 channels not supported yet") ∧
    (¬((b = 8 ∨ b = 16 ∨ b = 24 ∨ b = 32) ∧ 1 ≤ c ∧ c ≤ 8) →
       ∀ a, get_gstaudioinfo ⟨r, c, b⟩ ≠ .ok a) := by
  refine ⟨?_, ?_, ?_, ?_⟩
  · rintro (rfl | rfl | rfl | rfl) h1 h8 <;>
    · have hc0 : c ≠ 0 := by omega
      simp [get_gstaudioinfo, bitsFormat, Nat.not_lt.mpr h8, hc0]
  · intro hb
    have h8 : b ≠ 8 := fun h => hb (Or.inl h)
    have h16 : b ≠ 16 := fun h => hb (Or.inr (Or.inl h))
    have h24 : b ≠ 24 := fun h => hb (Or.inr (Or.inr (Or.inl h)))
    have h32 : b ≠ 32 := fun h => hb (Or.inr (Or.inr (Or.inr h)))
    simp [get_gstaudioinfo, h8, h16, h24, h32]
  · rintro (rfl | rfl | rfl | rfl) hc <;> simp [get_gstaudioinfo, hc]
  · intro hout a
    by_cases hb : b = 8 ∨ b = 16 ∨ b = 24 ∨ b = 32
    · have hc : ¬(1 ≤ c ∧ c ≤ 8) := fun h => hout ⟨hb, h⟩
      rcases Nat.lt_or_ge 8 c with h8 | h8
      · rcases hb with rfl | rfl | rfl | rfl <;> simp [get_gstaudioinfo, h8]
      · have hc0 : c = 0 := by omega
        rcases hb with rfl | rfl | rfl | rfl <;>
          simp [get_gstaudioinfo, hc0]
    · have h8 : b ≠ 8 := fun h => hb (Or.inl h)
      have h16 : b ≠ 16 := fun h => hb (Or.inr (Or.inl h))
      have h24 : b ≠ 24 := fun h => hb (Or.inr (Or.inr (Or.inl h)))
      have h32 : b ≠ 32 := fun h => hb (Or.inr (Or.inr (Or.inr h)))
      simp [get_gstaudioinfo, h8, h16, h24, h32]

theorem get_gstaudioinfo_cases_witness :
    get_gstaudioinfo ⟨44100, 2, 16⟩ =
      .ok ⟨bitsFormat 16, 44100, 2, channel_positions 2⟩ :=
  (get_gstaudioinfo_cases 44100 2 16).1 (by decide) (by decide) (by decide)

/-- C8 as stated is false on the code: when the metadata reader yields a
STREAMINFO block but reports consuming 2 of the 3 supplied bytes,
`get_claxon_streaminfo` hits the `assert_eq!` of line 351 and aborts — it
does not return any error to the caller. -/
theorem get_claxon_streaminfo_claim_counterexample :
    get_claxon_streaminfo [0, 0, 0] ⟨.okBlock (.streamInfo ⟨44100, 2, 16⟩), 2⟩ =
      .fatal ∧
    ∀ e, get_claxon_streaminfo [0, 0, 0] ⟨.okBlock (.streamInfo ⟨44100, 2, 16⟩), 2⟩ ≠
      .err e := by
  refine ⟨rfl, ?_⟩
  intro e h
  simp [get_claxon_streaminfo] at h

/-- C8 amended: if the metadata reader yields a STREAMINFO block but the
bytes consumed differ from the bytes supplied, `get_claxon_streaminfo`
aborts on its consumed-bytes assertion (a fatal invariant violation, not a
returned error); when the whole slice was consumed it succeeds; any other
reader outcome (exhausted, block error, non-STREAMINFO block) fails with
the single malformed-STREAMINFO error. -/
theorem get_claxon_streaminfo_cases (indata : List Nat) (p : MetaPrim) :
    (∀ si, p.next = .okBlock (.streamInfo si) → p.consumed ≠ indata.length →
       get_claxon_streaminfo indata p = .fatal) ∧
    (∀ si, p.next = .okBlock (.streamInfo si) → p.consumed = indata.length →
       get_claxon_streaminfo indata p = .ok si) ∧
    ((∀ si, p.next ≠ .okBlock (.streamInfo si)) →
       get_claxon_streaminfo indata p = .err "Failed to decode STREAMINFO") := by
  refine ⟨?_, ?_, ?_⟩
  · intro si hn hne
    simp [get_claxon_streaminfo, hn, hne]
  · intro si hn he
    simp [get_claxon_streaminfo, hn, he]
  · intro hno
    unfold get_claxon_streaminfo
    match hn : p.next with
    | .exhausted => rfl
    | .errBlock => rfl
    | .okBlock .other => rfl
    | .okBlock (.streamInfo si) => exact absurd hn (hno si)

theorem get_claxon_streaminfo_cases_witness :
    get_claxon_streaminfo [0, 0, 0] ⟨.okBlock (.streamInfo ⟨8000, 1, 8⟩), 1⟩ =
      .fatal :=
  (get_claxon_streaminfo_cases [0, 0, 0] ⟨.okBlock (.streamInfo ⟨8000, 1, 8⟩), 1⟩).1
    ⟨8000, 1, 8⟩ rfl (by decide)

/-- C5: when the frame reader succeeds but reports consuming a number of
bytes different from the buffer length, `handle_data` aborts on the
`assert_eq!` of line 305 (a fatal invariant violation, not a returned
error); under the precondition that the whole buffer was consumed, that
abort branch is unreachable and an output buffer is produced. -/
theorem handle_data_consumed_assert (st : State) (ai : AudioInfo)
    (indata : List Nat) (b : Block) (p : DataPrim)
    (hai : st.audio_info = some ai) (hch1 : 1 ≤ ai.channels)
    (hch8 : ai.channels ≤ 8) (hread : p.read = .okFrame b) :
    (p.consumed ≠ indata.length → handle_data st indata p = (.fatal, st)) ∧
    (p.consumed = indata.length →
       handle_data st indata p =
         (.ok (some (repack ai.format.depth
            (if ai.channels = 1 then b.buffer
             else interleave ai.channels b.len b.sample))), st)) := by
  obtain ⟨fmt, rate, nch, pos⟩ := ai
  simp only at hch1 hch8
  constructor
  · intro hne
    cases fmt <;>
      simp [handle_data, hai, hread, hne, AudioFormat.depth, Nat.not_lt.mpr hch8]
  · intro he
    obtain h1 | h1 : nch = 1 ∨ 1 < nch := by omega
    · cases fmt <;>
        simp [handle_data, hai, hread, he, h1, AudioFormat.depth,
              Nat.not_lt.mpr hch8]
    · have h0 : nch ≠ 0 := by omega
      have hne1 : nch ≠ 1 := by omega
      cases fmt <;>
        simp [handle_data, hai, hread, he, h0, hne1, AudioFormat.depth,
              Nat.not_lt.mpr hch8]

theorem handle_data_consumed_assert_witness :
    handle_data ⟨none, some ⟨.s16, 44100, 1, [.mono]⟩⟩ [1, 2]
        ⟨.okFrame ⟨1, 1, [5]⟩, 1⟩ =
      (.fatal, ⟨none, some ⟨.s16, 44100, 1, [.mono]⟩⟩) :=
  (handle_data_consumed_assert ⟨none, some ⟨.s16, 44100, 1, [.mono]⟩⟩
      ⟨.s16, 44100, 1, [.mono]⟩ [1, 2] ⟨1, 1, [5]⟩ ⟨.okFrame ⟨1, 1, [5]⟩, 1⟩
      rfl (by decide) (by decide) rfl).1 (by decide)

/-- C10: classification indexes past the end of the buffer — an abort, not
a classification or an error — for a 0-length buffer (which cannot be the
4-byte marker), and for a 1-byte buffer whose byte has non-zero low 7 bits
and equals `0xFF` (the short-circuit `&&` of line 205 then reads
`inmap[1]`). `handle_frame` on a started session propagates the abort. -/
theorem handle_frame_short_buffer_aborts (st : State) (mp : MetaPrim)
    (neg : Option FlowError) (dp : DataPrim) (b0 : Nat)
    (hlow : b0 &&& 0x7F ≠ 0) (hff : b0 = 0xFF) :
    classify [] = .oob ∧
    handle_frame (some st) (some []) mp neg dp = (.fatal, some st) ∧
    classify [b0] = .oob ∧
    handle_frame (some st) (some [b0]) mp neg dp = (.fatal, some st) := by
  subst hff
  exact ⟨rfl, rfl, rfl, rfl⟩

theorem handle_frame_short_buffer_aborts_witness :
    handle_frame (some ⟨none, none⟩) (some [255]) ⟨.exhausted, 0⟩ none
        ⟨.eof, 0⟩ = (.fatal, some ⟨none, none⟩) :=
  (handle_frame_short_buffer_aborts ⟨none, none⟩ ⟨.exhausted, 0⟩ none ⟨.eof, 0⟩
    255 (by decide) rfl).2.2.2

/-- C3: the classification rules run in order marker → metadata header →
audio-frame sync → other.  A buffer whose first byte has zero low 7 bits
is classified `metadataHeader` (never `audioFrame`) and `handle_frame`
routes it to `handle_streaminfo_header`; a buffer matching none of rules
1-3 (its inspected bytes existing) is classified `otherHeader` and
`handle_frame` produces no output for it. -/
theorem classify_metadata_first (buf : List Nat) (b0 : Nat)
    (hb0 : buf.get? 0 = some b0) :
    (b0 &&& 0x7F = 0 →
       classify buf = .metadataHeader ∧
       classify buf ≠ .audioFrame ∧
       ∀ st mp neg dp,
         handle_frame (some st) (some buf) mp neg dp =
           ((handle_streaminfo_header st buf mp neg).1,
            some (handle_streaminfo_header st buf mp neg).2)) ∧
    (buf ≠ fLaCMarker → b0 &&& 0x7F ≠ 0 →
       (b0 = 0xFF → ∀ b1, buf.get? 1 = some b1 → b1 &&& 0xFC ≠ 0xF8) →
       (b0 = 0xFF → buf.get? 1 ≠ none) →
       classify buf = .otherHeader ∧
       ∀ st mp neg dp,
         handle_frame (some st) (some buf) mp neg dp = (.ok none, some st)) := by
  constructor
  · intro h
    have hm : buf ≠ fLaCMarker := by
      intro he
      rw [he] at hb0
      simp [fLaCMarker] at hb0
      subst hb0
      exact absurd h (by decide)
    have hc : classify buf = .metadataHeader := by
      unfold classify
      rw [if_neg hm, hb0]
      simp [h]
    refine ⟨hc, by simp [hc], ?_⟩
    intro st mp neg dp
    simp [handle_frame, hc]
  · intro hm hlow h3 h4
    have hc : classify buf = .otherHeader := by
      unfold classify
      rw [if_neg hm, hb0]
      by_cases hff : b0 = 0xFF
      · obtain ⟨b1, hb1⟩ : ∃ b1, buf.get? 1 = some b1 := by
          cases hg : buf.get? 1 with
          | none => exact absurd hg (h4 hff)
          | some b1 => exact ⟨b1, rfl⟩
        have hmask := h3 hff b1 hb1
        rw [List.get?_eq_getElem?] at hb1
        simp [hlow, hff, hb1, hmask]
      · simp [hlow, hff]
    refine ⟨hc, ?_⟩
    intro st mp neg dp
    simp [handle_frame, hc]

theorem classify_metadata_first_witness :
    classify [0, 1, 2] = Classification.metadataHeader :=
  ((classify_metadata_first [0, 1, 2] 0 rfl).1 (by decide)).1

/-- C9 as stated is false on the code: `set_format` does not return
success for every caps input — a first stream-header buffer of exactly the
7 identification bytes (shorter than the 13 bytes the code then slices
away) makes `&inmap[13..]` index past the end of the buffer, an abort
rather than a successful return. -/
theorem set_format_claim_counterexample :
    set_format (some [some flacIdent, some []]) ⟨.exhausted, 0⟩ = .fatal := by
  decide

/-- C9 amended: provided the first header buffer is at least 13 bytes long
(buffers shorter than 7 bytes abort on the `inmap[0..7]` slice, and 7-12
byte buffers whose prefix matches abort on `inmap[13..]`) and the
STREAMINFO consumed-bytes assertion does not fire, `set_format` returns
success; in every failure case of the out-of-band header path — no
`streamheader` field, fewer than two headers, a non-buffer first header, a
wrong identification prefix, a STREAMINFO parse error, or a
format-resolution error — it silently stores a fresh state with both
fields absent, and only on full success stores both. -/
theorem set_format_fallback (hs : List (Option (List Nat))) (mp : MetaPrim)
    (ident : List Nat) :
    (set_format none mp = .ok ⟨none, none⟩) ∧
    (hs.length < 2 → set_format (some hs) mp = .ok ⟨none, none⟩) ∧
    (2 ≤ hs.length → hs.getD 0 none = none →
       set_format (some hs) mp = .ok ⟨none, none⟩) ∧
    (2 ≤ hs.length → hs.getD 0 none = some ident → 13 ≤ ident.length →
       ((ident.take 7 ≠ flacIdent → set_format (some hs) mp = .ok ⟨none, none⟩) ∧
        (∀ e, ident.take 7 = flacIdent →
           get_claxon_streaminfo (ident.drop 13) mp = .err e →
           set_format (some hs) mp = .ok ⟨none, none⟩) ∧
        (∀ si e, ident.take 7 = flacIdent →
           get_claxon_streaminfo (ident.drop 13) mp = .ok si →
           get_gstaudioinfo si = .err e →
           set_format (some hs) mp = .ok ⟨none, none⟩) ∧
        (∀ si ai, ident.take 7 = flacIdent →
           get_claxon_streaminfo (ident.drop 13) mp = .ok si →
           get_gstaudioinfo si = .ok ai →
           set_format (some hs) mp = .ok ⟨some si, some ai⟩))) := by
  refine ⟨rfl, ?_, ?_, ?_⟩
  · intro hlen
    simp [set_format, hlen]
  · intro hlen hget
    rw [List.getD_eq_getElem?_getD] at hget
    simp [set_format, Nat.not_lt.mpr hlen, hget]
  · intro hlen hget h13
    rw [List.getD_eq_getElem?_getD] at hget
    have h7 : ¬ident.length < 7 := by omega
    have h13' : ¬ident.length < 13 := by omega
    refine ⟨?_, ?_, ?_, ?_⟩
    · intro htake
      simp [set_format, Nat.not_lt.mpr hlen, hget, h7, h13', htake]
    · intro e htake hcl
      simp [set_format, Nat.not_lt.mpr hlen, hget, h7, h13', htake, hcl]
    · intro si e htake hcl hai
      simp [set_format, Nat.not_lt.mpr hlen, hget, h7, h13', htake, hcl, hai]
    · intro si ai htake hcl hai
      simp [set_format, Nat.not_lt.mpr hlen, hget, h7, h13', htake, hcl, hai]

theorem set_format_fallback_witness :
    set_format (some [none, none]) ⟨.exhausted, 0⟩ = .ok ⟨none, none⟩ :=
  (set_format_fallback [none, none] ⟨.exhausted, 0⟩ []).2.2.1 (by decide) rfl

lemma flatMap_const_length (n ch : Nat) (f : Nat → List Int)
    (hf : ∀ o, (f o).length = ch) :
    ((List.range n).flatMap f).length = n * ch := by
  induction n with
  | zero => simp
  | succ n ih =>
    rw [List.range_succ, List.flatMap_append]
    simp [ih, hf, Nat.succ_mul]

lemma flatMap_const_get (n ch : Nat) (f : Nat → List Int)
    (hf : ∀ o, (f o).length = ch) (i c : Nat) (hi : i < n) (hc : c < ch) :
    ((List.range n).flatMap f).get? (i * ch + c) = (f i).get? c := by
  induction n with
  | zero => omega
  | succ n ih =>
    rw [List.range_succ, List.flatMap_append]
    rcases Nat.lt_or_ge i n with h | h
    · have hlt : i * ch + c < ((List.range n).flatMap f).length := by
        rw [flatMap_const_length n ch f hf]
        calc i * ch + c < i * ch + ch := by omega
          _ = (i + 1) * ch := by ring
          _ ≤ n * ch := Nat.mul_le_mul_right ch h
      rw [List.get?_append hlt]
      exact ih h
    · have hi' : i = n := by omega
      subst hi'
      have hge : ((List.range i).flatMap f).length ≤ i * ch + c := by
        rw [flatMap_const_length i ch f hf]
        omega
      rw [List.get?_append_right hge, flatMap_const_length i ch f hf,
          Nat.add_sub_cancel_left]
      simp [List.get?_append (by rw [hf i]; omega : c < (f i).length)]

/-- C1: the interleaving loop places channel `c`'s `i`-th sample of an
`n`-samples-per-channel frame at position `i * channel_count + c` of the
output sample sequence; in particular, for 2 channels with per-channel
arrays `[a0,a1,a2]` and `[b0,b1,b2]` the output order is
`a0,b0,a1,b1,a2,b2`. -/
theorem interleave_layout (ch n : Nat) (sample : Nat → Nat → Int)
    (hch : 1 < ch) :
    (∀ i c, i < n → c < ch →
       (interleave ch (n * ch) sample).get? (i * ch + c) = some (sample c i)) ∧
    (∀ a0 a1 a2 b0 b1 b2 : Int,
       interleave 2 6 (sampleOfLists [[a0, a1, a2], [b0, b1, b2]]) =
         [a0, b0, a1, b1, a2, b2]) := by
  constructor
  · intro i c hi hc
    have hch0 : 0 < ch := by omega
    unfold interleave
    rw [Nat.mul_div_cancel n hch0, Nat.mul_mod_left n ch]
    rw [List.replicate_zero, List.append_nil]
    rw [flatMap_const_get n ch _ (fun o => by simp) i c hi hc]
    rw [List.get?_map, List.get?_range hc]
    rfl
  · intro a0 a1 a2 b0 b1 b2
    rfl

theorem interleave_layout_witness :
    (interleave 2 (3 * 2) (sampleOfLists [[1, 2, 3], [4, 5, 6]])).get?
        (2 * 2 + 1) = some (sampleOfLists [[1, 2, 3], [4, 5, 6]] 1 2) :=
  (interleave_layout 2 3 (sampleOfLists [[1, 2, 3], [4, 5, 6]])
    (by decide)).1 2 1 (by decide) (by decide)

lemma i16_decode_value (u0 : Nat) (x : Int) (hu : (u0 : Int) = x % 65536)
    (h1 : -32768 ≤ x) (h2 : x < 32768) :
    (if u0 % 256 % 256 + 256 * (u0 / 256 % 256) < 32768
     then ((u0 % 256 % 256 + 256 * (u0 / 256 % 256) : Nat) : Int)
     else ((u0 % 256 % 256 + 256 * (u0 / 256 % 256) : Nat) : Int) - 65536) = x := by
  have hs : u0 % 256 % 256 + 256 * (u0 / 256 % 256) = u0 := by omega
  rw [hs]
  split <;> omega

/-- C6: repacking mono samples at depth 16 (the `e as i16` branch of lines
323-325) and reinterpreting the output byte sequence as little-endian
16-bit signed integers reproduces the original sample values exactly,
whenever every sample fits the 16-bit signed range. -/
theorem repack16_roundtrip (v : List Int)
    (hv : ∀ x ∈ v, -32768 ≤ x ∧ x < 32768) :
    bytesToI16s (repack 16 v) = v := by
  induction v with
  | nil => rfl
  | cons x v ih =>
    have hx := hv x (List.mem_cons_self x v)
    have ih' := ih fun y hy => hv y (List.mem_cons_of_mem x hy)
    have hstep : repack 16 (x :: v) = i16Bytes (asI16 x) ++ repack 16 v := by
      simp [repack]
    have h1 : asI16 x = x := by
      unfold asI16
      omega
    rw [hstep, h1]
    have hgoal : bytesToI16s (i16Bytes x ++ repack 16 v) =
        (if (x % 65536).toNat % 256 % 256 +
              256 * ((x % 65536).toNat / 256 % 256) < 32768
         then (((x % 65536).toNat % 256 % 256 +
                256 * ((x % 65536).toNat / 256 % 256) : Nat) : Int)
         else (((x % 65536).toNat % 256 % 256 +
                256 * ((x % 65536).toNat / 256 % 256) : Nat) : Int) - 65536) ::
          bytesToI16s (repack 16 v) := rfl
    rw [hgoal, ih',
        i16_decode_value ((x % 65536).toNat) x (by omega) hx.1 hx.2]

theorem repack16_roundtrip_witness :
    bytesToI16s (repack 16 [1, -2, 32767, -32768]) = [1, -2, 32767, -32768] :=
  repack16_roundtrip [1, -2, 32767, -32768] (by decide)
